import Mathlib

/-!
Verification of the hexapod `controller` component (src/components/controller/controller.go).

The repository ships only `controller.go` under src/. The types it uses —
`math3d.Vector3`, `math3d.Pose` (with `Pose.Add`), `hexapod.State`, the
`sixaxis.SA` input snapshot and the `Latch` edge detector — live outside the
provided sources, so they are modelled from the spec (each such definition
carries a `Modelled from the spec:` doc comment). `Controller.Tick` itself is
translated statement-by-statement from controller.go. Go `float64` is modelled
as `ℝ`; device integers (stick axes, button pressures) as `ℤ`; the logger and
the `now` timestamp argument (unused by the logic) are omitted; the in-place
mutation of `*hexapod.State` and of the receiver becomes explicit state
passing: `Tick` returns the updated `Controller` and `State`.
-/

namespace Hexapod

/-- Modelled from the spec: the `Latch` edge detector (its Go file is not under
src/; only its uses in controller.go are). Spec §4.1: `run(pressed)` returns
true exactly once per maximal run of consecutive `true` inputs — on the first
`true` after a `false` (or after construction); while the input stays `true`,
subsequent calls return false; as soon as the input is `false`, the internal
state resets. State is the single boolean `active`. -/
structure Latch where
  active : Bool
deriving DecidableEq, Repr

/-- Modelled from the spec: one call of the edge detector. Returns the fired
event together with the updated latch (`active` tracks the input). Fires iff
the input is true and the latch was not already active. -/
def Latch.Run (l : Latch) (v : Bool) : Bool × Latch :=
  (v && !l.active, ⟨v⟩)

/-- A fresh latch, as after construction: inactive. -/
def Latch.new : Latch := ⟨false⟩

/-- Feed a whole sequence of boolean inputs to a latch, collecting the outputs. -/
def Latch.runList (l : Latch) : List Bool → List Bool
  | [] => []
  | b :: bs => (l.Run b).1 :: (l.Run b).2.runList bs

/-- Spec-side definition (from the spec's words, for comparison with
`Latch.runList`): the expected output sequence — true exactly on the first
`true` of each maximal run of consecutive `true`s, i.e. on a `true` whose
predecessor (or the pre-construction default) is `false`. -/
def risingEdges (bs : List Bool) : List Bool :=
  List.zipWith (fun cur prev => cur && !prev) bs (false :: bs)

noncomputable section

/-- Modelled from the spec: `math3d.Vector3` (not under src/). Components are
Go float64, modelled as real numbers. -/
structure Vector3 where
  X : ℝ
  Y : ℝ
  Z : ℝ

/-- Modelled from the spec: `math3d.Pose` (not under src/): position plus
heading, pitch and bank angles (degrees). -/
structure Pose where
  Position : Vector3
  Heading : ℝ
  Pitch : ℝ
  Bank : ℝ

/-- Cosine of an angle given in degrees. -/
def cosd (θ : ℝ) : ℝ := Real.cos (θ * Real.pi / 180)

/-- Sine of an angle given in degrees. -/
def sind (θ : ℝ) : ℝ := Real.sin (θ * Real.pi / 180)

/-- Rotation of a vector about the X (lateral) axis by a pitch angle in degrees. -/
def rotX (θ : ℝ) (v : Vector3) : Vector3 :=
  ⟨v.X, v.Y * cosd θ - v.Z * sind θ, v.Y * sind θ + v.Z * cosd θ⟩

/-- Rotation of a vector about the Y (vertical) axis by a heading angle in degrees. -/
def rotY (θ : ℝ) (v : Vector3) : Vector3 :=
  ⟨v.X * cosd θ + v.Z * sind θ, v.Y, v.Z * cosd θ - v.X * sind θ⟩

/-- Rotation of a vector about the Z (forward) axis by a bank angle in degrees. -/
def rotZ (θ : ℝ) (v : Vector3) : Vector3 :=
  ⟨v.X * cosd θ - v.Y * sind θ, v.X * sind θ + v.Y * cosd θ, v.Z⟩

/-- Rotate a vector into a pose's frame: bank about Z, then pitch about X,
then heading about the vertical Y axis. -/
def Pose.rotate (p : Pose) (v : Vector3) : Vector3 :=
  rotY p.Heading (rotX p.Pitch (rotZ p.Bank v))

/-- Modelled from the spec: `math3d.Pose.Add` (not under src/). The spec
describes the offset's position as a translation in the base pose's reference
frame ("cancel its pitch and bank, so the reference frame is level regardless
of body tilt, then translate", §4.2 step 5; matching controller.go's comment
that it 'discards the pitch+bank orientation of the hex pose, so that our
focal point is forwards relative to the ground rather than the chassis'):
the offset position is rotated by the base pose's orientation and added to its
position; the angles add componentwise. -/
def Pose.Add (p o : Pose) : Pose :=
  { Position := ⟨p.Position.X + (p.rotate o.Position).X,
                 p.Position.Y + (p.rotate o.Position).Y,
                 p.Position.Z + (p.rotate o.Position).Z⟩
    Heading := p.Heading + o.Heading
    Pitch := p.Pitch + o.Pitch
    Bank := p.Bank + o.Bank }

/-- Modelled from the spec: one analog stick of the `sixaxis.SA` snapshot
(out-of-scope device layer). Normalized axes in [-127, 127]. -/
structure Stick where
  X : ℤ
  Y : ℤ

/-- Modelled from the spec: the `sixaxis.SA` controller snapshot — the spec's
`InputFrame` (§3), produced once per cycle by the external sampler. Analog
sticks range over [-127,127]; pressures (L2, R2, R1, Up, Down, Left, Right,
Triangle) over [0,255]; Select, Start and PS are booleans (controller.go reads
them as booleans); Orientation is the tilt sensor's unit vector. -/
structure SA where
  LeftStick : Stick
  RightStick : Stick
  L2 : ℤ
  R2 : ℤ
  R1 : ℤ
  Up : ℤ
  Down : ℤ
  Left : ℤ
  Right : ℤ
  Triangle : ℤ
  Select : Bool
  Start : Bool
  PS : Bool
  Orientation : Vector3

/-- Modelled from the spec: `hexapod.State` (§3; not under src/), the shared
kinematic state mutated in place by the controller. The Go nullable
`*math3d.Vector3` LookAt is an `Option`. -/
structure State where
  Pose : Hexapod.Pose
  Target : Hexapod.Pose
  Offset : Vector3
  LookAt : Option Vector3
  Speed : ℤ
  GaitIndex : ℤ
  Shutdown : Bool

/-- The controller component's own state (controller.go lines 42-62): the
clearance accumulator, the per-button latches and the orientation-follow mode
flag. The `sa` reader handle is modelled by passing the current snapshot to
`Tick` as an argument. -/
structure Controller where
  clearance : ℝ
  upLatch : Latch
  downLatch : Latch
  leftLatch : Latch
  rightLatch : Latch
  psLatch : Latch
  selectTriangle : Latch
  setTargetOrientation : Bool

/-- controller.go line 14: planar motion speed constant. -/
def moveSpeed : ℝ := 100.0
/-- controller.go line 15: rotation speed constant. -/
def rotSpeed : ℝ := 15.0
/-- controller.go line 16. -/
def horizontalLookScale : ℝ := 250.0
/-- controller.go line 17. -/
def verticalLookScale : ℝ := 250.0
/-- controller.go line 19. -/
def focalHorizontalOffset : ℝ := 0
/-- controller.go line 20: y offset from origin + y distance to middle of lens. -/
def focalVerticalOffset : ℝ := 43 + 34.5
/-- controller.go line 21. -/
def focalDistance : ℝ := 500
/-- controller.go line 24: distance to adjust the clearance per Up/Down press. -/
def clearanceStep : ℝ := 10
/-- controller.go line 27: minimum pressure needed to trigger a button press. -/
def minButtonPressure : ℤ := 10
/-- controller.go line 31. -/
def bankScale : ℝ := 15.0
/-- controller.go line 35. -/
def pitchScale : ℝ := 15.0
/-- controller.go line 38. -/
def xOffsetScale : ℝ := 40.0
/-- controller.go line 39. -/
def zOffsetScale : ℝ := 40.0

/-- controller.go `New`: clearance 40, all latches at their zero value
(inactive), orientation-follow off. -/
def Controller.New : Controller :=
  { clearance := 40
    upLatch := Latch.new, downLatch := Latch.new
    leftLatch := Latch.new, rightLatch := Latch.new
    psLatch := Latch.new, selectTriangle := Latch.new
    setTargetOrientation := false }

/-- The focal point computed in controller.go lines 131-141 (the else branch of
the R1 test): start from the current pose, cancel its pitch and bank so the
reference frame is level, then translate by the stick-scaled horizontal and
vertical offsets (vertical axis inverted, plus the fixed vertical bias) and the
fixed forward distance. -/
def focalPoint (p : Pose) (sa : SA) : Vector3 :=
  ((p.Add
    { Position := { X := 0, Y := 0, Z := 0 }, Heading := 0
      Pitch := -p.Pitch, Bank := -p.Bank }).Add
    { Position := { X := (sa.RightStick.X : ℝ) / 127 * horizontalLookScale + focalHorizontalOffset
                    Y := ((sa.RightStick.Y * -1 : ℤ) : ℝ) / 127 * verticalLookScale + focalVerticalOffset
                    Z := focalDistance }
      Heading := 0, Pitch := 0, Bank := 0 }).Position

set_option maxHeartbeats 1000000 in
/-- controller.go `Controller.Tick` (lines 80-182), translated statement by
statement; `sa` is the current sixaxis snapshot read through the receiver in
Go. Returns the updated controller and state (the Go version mutates both in
place and returns a nil error). -/
def Controller.Tick (c : Controller) (state : State) (sa : SA) : Controller × State :=
  -- Do nothing if we're shutting down.
  if state.Shutdown then (c, state)
  else
    -- At any time, pressing start shuts down the hex.
    let state1 := if sa.Start && !state.Shutdown then { state with Shutdown := true } else state
    -- Set the target position and heading relative to the current pose.
    let delta : Pose :=
      { Position := { X := (sa.LeftStick.X : ℝ) / 127 * moveSpeed
                      Y := 0
                      Z := ((-sa.LeftStick.Y : ℤ) : ℝ) / 127 * moveSpeed }
        Heading := ((sa.R2 - sa.L2 : ℤ) : ℝ) / 127 * rotSpeed
        Pitch := 0, Bank := 0 }
    let state2 := { state1 with Target := state1.Pose.Add delta }
    -- Set the target Y position (clearance) absolutely.
    let state3 := { state2 with Target := { state2.Target with
      Position := { state2.Target.Position with Y := c.clearance } } }
    -- If target orientation mode is enabled, set the target XZ orientation.
    let state4 := if c.setTargetOrientation then
        { state3 with Target := { state3.Target with
            Pitch := -sa.Orientation.Y * pitchScale
            Bank := -sa.Orientation.X * bankScale } }
      else
        { state3 with Target := { state3.Target with Pitch := 0, Bank := 0 } }
    -- Set offset using the right stick while R1 is held down; otherwise use the
    -- right stick to set the focal point, which the head aims at.
    let state5 := if sa.R1 > minButtonPressure then
        { state4 with Offset := { X := (sa.RightStick.X : ℝ) / 127 * xOffsetScale
                                  Y := 0
                                  Z := ((sa.RightStick.Y * -1 : ℤ) : ℝ) / 127 * zOffsetScale } }
      else
        let fp := focalPoint state4.Pose sa
        { state4 with LookAt := some fp }
    -- Toggle target orientation mode by pressing PS.
    let ps := c.psLatch.Run sa.PS
    let c1 := { c with
      psLatch := ps.2
      setTargetOrientation := if ps.1 then !c.setTargetOrientation else c.setTargetOrientation }
    -- Increase clearance by pressing Up.
    let up := c1.upLatch.Run (decide (sa.Up > minButtonPressure))
    let c2 := { c1 with
      upLatch := up.2
      clearance := if up.1 then c1.clearance + clearanceStep else c1.clearance }
    -- Decrease clearance by pressing Down.
    let dn := c2.downLatch.Run (decide (sa.Down > minButtonPressure))
    let c3 := { c2 with
      downLatch := dn.2
      clearance := if dn.1 then c2.clearance - clearanceStep else c2.clearance }
    -- Increase speed by pressing right.
    let rt := c3.rightLatch.Run (decide (sa.Right > minButtonPressure))
    let c4 := { c3 with rightLatch := rt.2 }
    let state6 := if rt.1 then { state5 with Speed := state5.Speed + 1 } else state5
    -- Decrease speed by pressing left.
    let lf := c4.leftLatch.Run (decide (sa.Left > minButtonPressure))
    let c5 := { c4 with leftLatch := lf.2 }
    let state7 := if lf.1 then { state6 with Speed := state6.Speed - 1 } else state6
    -- Cycle through gaits by pressing select + triangle.
    let st := c5.selectTriangle.Run (sa.Select && decide (sa.Triangle > minButtonPressure))
    let c6 := { c5 with selectTriangle := st.2 }
    let state8 := if st.1 then { state7 with GaitIndex := state7.GaitIndex + 1 } else state7
    (c6, state8)

/-- A sequence of consecutive ticks: fold `Tick` over a list of input
snapshots, threading the controller and the shared state. -/
def Controller.TickSeq (c : Controller) (s : State) : List SA → Controller × State
  | [] => (c, s)
  | sa :: rest => Controller.TickSeq (c.Tick s sa).1 (c.Tick s sa).2 rest

/-- The zero vector, for concrete test states. -/
def v0 : Vector3 := ⟨0, 0, 0⟩

/-- The identity (level, origin) pose, for concrete test states. -/
def p0 : Pose := ⟨v0, 0, 0, 0⟩

/-- An all-neutral input snapshot: sticks centred, no pressure, no buttons. -/
def sa0 : SA :=
  { LeftStick := ⟨0, 0⟩, RightStick := ⟨0, 0⟩
    L2 := 0, R2 := 0, R1 := 0, Up := 0, Down := 0, Left := 0, Right := 0
    Triangle := 0, Select := false, Start := false, PS := false
    Orientation := v0 }

/-- A concrete quiescent shared state: everything zeroed, not shut down. -/
def st0 : State :=
  { Pose := p0, Target := p0, Offset := v0, LookAt := none
    Speed := 0, GaitIndex := 0, Shutdown := false }

/-- The neutral snapshot with the Up button fully pressed. -/
def saUp : SA := { sa0 with Up := 255 }

/-- The neutral snapshot with the Down button fully pressed. -/
def saDn : SA := { sa0 with Down := 255 }

end

/-- Closed form of a latch fed a whole sequence: each output pairs the input
with its predecessor (the latch's starting state standing in before the first
input). -/
lemma runList_eq_zipWith (bs : List Bool) : ∀ a : Bool,
    (Latch.mk a).runList bs = List.zipWith (fun cur prev => cur && !prev) bs (a :: bs) := by
  induction bs with
  | nil => intro a; rfl
  | cons b bs ih => intro a; simp [Latch.runList, Latch.Run, ih b]

/-- C5: for every sequence of boolean inputs fed to a freshly constructed
Latch, `run` returns true exactly on the first `true` of each maximal run of
consecutive `true` inputs (formalised as: the output equals `risingEdges`,
which marks exactly the `true`s whose predecessor — or the pre-construction
default — is `false`), and false elsewhere; in particular the input sequence
[F,T,T,F,T] yields [F,T,F,F,T]. -/
theorem latch_rising_edges :
    (∀ bs : List Bool, Latch.new.runList bs = risingEdges bs) ∧
    Latch.new.runList [false, true, true, false, true] = [false, true, false, false, true] := by
  constructor
  · intro bs
    simpa [risingEdges, Latch.new] using runList_eq_zipWith bs false
  · rfl

/-- C3: if `state.Shutdown` is already true at entry, `Tick` returns
immediately, leaving every field of the state (and of the controller) exactly
as it was; in particular the resulting `Shutdown` is still true, so this
component never resets it and every tick after a shutdown is a no-op. -/
theorem shutdown_tick_noop (c : Controller) (s : State) (sa : SA)
    (h : s.Shutdown = true) :
    c.Tick s sa = (c, s) ∧ ((c.Tick s sa).2).Shutdown = true := by
  refine ⟨?_, ?_⟩ <;> simp [Controller.Tick, h]

/-- Witness for C3 at a concrete shut-down state and an arbitrary input. -/
theorem shutdown_tick_noop_witness :
    Controller.New.Tick { st0 with Shutdown := true } sa0
        = (Controller.New, { st0 with Shutdown := true }) ∧
    ((Controller.New.Tick { st0 with Shutdown := true } sa0).2).Shutdown = true :=
  shutdown_tick_noop Controller.New { st0 with Shutdown := true } sa0 rfl

/-- Helper: the no-op on an already-shut-down state (controller.go lines 83-85). -/
lemma tick_noop_of_shutdown (c : Controller) (s : State) (sa : SA)
    (h : s.Shutdown = true) : c.Tick s sa = (c, s) := by
  simp [Controller.Tick, h]

/-- Helper: a tick that starts un-shut-down leaves `Shutdown` exactly at the
Start button's value (controller.go lines 88-91; nothing later writes it). -/
lemma tick_shutdown_eq_start (c : Controller) (s : State) (sa : SA)
    (h : s.Shutdown = false) : ((c.Tick s sa).2).Shutdown = sa.Start := by
  cases hst : sa.Start <;>
    simp [Controller.Tick, h, hst, apply_ite State.Shutdown]

/-- Helper: the clearance accumulator after one non-no-op tick, as a function
of the Up/Down pressures and the two clearance latches (controller.go lines
151-161). -/
lemma tick_clearance_eq (c : Controller) (s : State) (sa : SA)
    (h : s.Shutdown = false) :
    ((c.Tick s sa).1).clearance =
      if decide (sa.Down > minButtonPressure) && !c.downLatch.active
      then (if decide (sa.Up > minButtonPressure) && !c.upLatch.active
            then c.clearance + clearanceStep else c.clearance) - clearanceStep
      else (if decide (sa.Up > minButtonPressure) && !c.upLatch.active
            then c.clearance + clearanceStep else c.clearance) := by
  simp [Controller.Tick, h, Latch.Run]

/-- Helper: after a non-no-op tick the Up latch tracks the Up pressure test. -/
lemma tick_upLatch_eq (c : Controller) (s : State) (sa : SA)
    (h : s.Shutdown = false) :
    ((c.Tick s sa).1).upLatch = ⟨decide (sa.Up > minButtonPressure)⟩ := by
  simp [Controller.Tick, h, Latch.Run]

/-- Helper: after a non-no-op tick the Down latch tracks the Down pressure test. -/
lemma tick_downLatch_eq (c : Controller) (s : State) (sa : SA)
    (h : s.Shutdown = false) :
    ((c.Tick s sa).1).downLatch = ⟨decide (sa.Down > minButtonPressure)⟩ := by
  simp [Controller.Tick, h, Latch.Run]

/-- C2 counterexample: from a quiescent all-zero state, a tick with only Start
pressed sets Shutdown but keeps mutating during that same tick:
`Target.Position.Y` is rewritten from 0 to the clearance 40, so a field other
than Shutdown changed, refuting "no further mutation of state during that same
tick". -/
theorem start_tick_still_mutates :
    ((Controller.New.Tick st0 { sa0 with Start := true }).2).Shutdown = true ∧
    ((Controller.New.Tick st0 { sa0 with Start := true }).2).Target.Position.Y
      ≠ st0.Target.Position.Y := by
  constructor
  · simp +decide [Controller.Tick, st0, sa0, Controller.New, Latch.new, Latch.Run,
      minButtonPressure]
  · simp +decide [Controller.Tick, st0, sa0, Controller.New, Latch.new, Latch.Run,
      minButtonPressure, p0, v0]

/-- C2 amended: pressing Start on a tick that starts un-shut-down sets
`state.Shutdown = true`, and it is from the NEXT tick on that the state is left
untouched (the shutdown latch makes every subsequent tick a no-op); the
remainder of the triggering tick itself still executes, as the counterexample
shows. -/
theorem start_sets_shutdown_then_noop (c : Controller) (s : State) (sa : SA)
    (h : s.Shutdown = false) (hs : sa.Start = true) :
    ((c.Tick s sa).2).Shutdown = true ∧
    ∀ sa2 : SA, (c.Tick s sa).1.Tick (c.Tick s sa).2 sa2
        = ((c.Tick s sa).1, (c.Tick s sa).2) := by
  have hsd : ((c.Tick s sa).2).Shutdown = true := by
    rw [tick_shutdown_eq_start c s sa h, hs]
  exact ⟨hsd, fun sa2 => tick_noop_of_shutdown _ _ sa2 hsd⟩

/-- Witness for the amended C2 at a concrete state and input. -/
theorem start_sets_shutdown_then_noop_witness :
    ((Controller.New.Tick st0 { sa0 with Start := true }).2).Shutdown = true ∧
    ∀ sa2 : SA,
      (Controller.New.Tick st0 { sa0 with Start := true }).1.Tick
          (Controller.New.Tick st0 { sa0 with Start := true }).2 sa2
        = ((Controller.New.Tick st0 { sa0 with Start := true }).1,
           (Controller.New.Tick st0 { sa0 with Start := true }).2) :=
  start_sets_shutdown_then_noop Controller.New st0 { sa0 with Start := true } rfl rfl

/-- C1 counterexample: on the very first tick from a fresh controller
(clearance 40) with the Up button fully pressed, the Up latch fires and the
clearance accumulator moves to 50, but `Target.Position.Y` was written earlier
in the tick from the entry value 40 — so after that tick
`Target.Position.Y ≠ clearance`, refuting the claim on latch-firing ticks. -/
theorem clearance_sync_fails_on_up_tick :
    ((Controller.New.Tick st0 { sa0 with Up := 255 }).2).Target.Position.Y
      ≠ ((Controller.New.Tick st0 { sa0 with Up := 255 }).1).clearance := by
  simp +decide [Controller.Tick, st0, sa0, Controller.New, Latch.new, Latch.Run,
    minButtonPressure, clearanceStep]

/-- C1 amended: after every non-no-op tick (Shutdown false at entry),
`Target.Position.Y` equals the clearance accumulator as it stood at tick
entry — the value the absolute overwrite reads before the Up/Down latches run.
On a tick whose latch updates leave the accumulator at a different value, the
post-tick accumulator and `Target.Position.Y` disagree, as the counterexample
shows. -/
theorem target_y_eq_entry_clearance (c : Controller) (s : State) (sa : SA)
    (h : s.Shutdown = false) :
    ((c.Tick s sa).2).Target.Position.Y = c.clearance := by
  simp [Controller.Tick, h, apply_ite State.Target, apply_ite State.Pose,
    apply_ite Pose.Position, apply_ite Vector3.Y]

/-- Witness for the amended C1 at a concrete quiescent state and neutral input. -/
theorem target_y_eq_entry_clearance_witness :
    ((Controller.New.Tick st0 sa0).2).Target.Position.Y = Controller.New.clearance :=
  target_y_eq_entry_clearance Controller.New st0 sa0 rfl

/-- C4: on every non-no-op tick exactly one of Offset and LookAt is
overwritten, selected by the R1 pressure against the fixed minimum threshold:
strictly above it, Offset is written from the right stick (X and inverted-Y
axes scaled by the offset-scale constants) and LookAt keeps its prior value;
at or below it, LookAt is written to the computed focal point and Offset keeps
its prior value. -/
theorem offset_lookat_exclusive (c : Controller) (s : State) (sa : SA)
    (h : s.Shutdown = false) :
    (sa.R1 > minButtonPressure →
      ((c.Tick s sa).2).Offset
          = { X := (sa.RightStick.X : ℝ) / 127 * xOffsetScale
              Y := 0
              Z := ((sa.RightStick.Y * -1 : ℤ) : ℝ) / 127 * zOffsetScale } ∧
      ((c.Tick s sa).2).LookAt = s.LookAt) ∧
    (¬ sa.R1 > minButtonPressure →
      ((c.Tick s sa).2).LookAt = some (focalPoint s.Pose sa) ∧
      ((c.Tick s sa).2).Offset = s.Offset) := by
  constructor
  · intro hr
    constructor <;>
      simp [Controller.Tick, h, hr, apply_ite State.Offset, apply_ite State.LookAt,
        apply_ite State.Pose]
  · intro hr
    constructor <;>
      simp [Controller.Tick, h, hr, apply_ite State.Offset, apply_ite State.LookAt,
        apply_ite State.Pose]

/-- Witness for C4 at concrete inputs: R1 fully pressed (above threshold) for
the first conjunct, R1 released for the second. -/
theorem offset_lookat_exclusive_witness :
    (((255 : ℤ) > minButtonPressure →
      ((Controller.New.Tick st0 { sa0 with R1 := 255 }).2).Offset
          = { X := ((0 : ℤ) : ℝ) / 127 * xOffsetScale
              Y := 0
              Z := (((0 : ℤ) * -1 : ℤ) : ℝ) / 127 * zOffsetScale } ∧
      ((Controller.New.Tick st0 { sa0 with R1 := 255 }).2).LookAt = st0.LookAt) ∧
     (¬ (255 : ℤ) > minButtonPressure →
      ((Controller.New.Tick st0 { sa0 with R1 := 255 }).2).LookAt
          = some (focalPoint st0.Pose { sa0 with R1 := 255 }) ∧
      ((Controller.New.Tick st0 { sa0 with R1 := 255 }).2).Offset = st0.Offset)) ∧
    ((¬ (0 : ℤ) > minButtonPressure) →
      ((Controller.New.Tick st0 sa0).2).LookAt = some (focalPoint st0.Pose sa0) ∧
      ((Controller.New.Tick st0 sa0).2).Offset = st0.Offset) :=
  ⟨offset_lookat_exclusive Controller.New st0 { sa0 with R1 := 255 } rfl,
   (offset_lookat_exclusive Controller.New st0 sa0 rfl).2⟩

/-- C6: on every non-no-op tick the heading delta added to the current pose is
exactly (R2 − L2) / 127 scaled by the rotation-speed constant 15.0; whenever
L2 exceeds R2 (in particular for any pressures in [0,255]) the heading delta
is negative. The trigger pressures are modelled as exact integers per the
spec's InputFrame ranges. -/
theorem heading_delta_triggers (c : Controller) (s : State) (sa : SA)
    (h : s.Shutdown = false) :
    ((c.Tick s sa).2).Target.Heading - s.Pose.Heading
        = ((sa.R2 - sa.L2 : ℤ) : ℝ) / 127 * rotSpeed ∧
    (sa.L2 > sa.R2 → ((c.Tick s sa).2).Target.Heading - s.Pose.Heading < 0) := by
  have hmain : ((c.Tick s sa).2).Target.Heading - s.Pose.Heading
      = ((sa.R2 - sa.L2 : ℤ) : ℝ) / 127 * rotSpeed := by
    simp [Controller.Tick, h, Pose.Add, apply_ite State.Target, apply_ite State.Pose,
      apply_ite Pose.Heading]
  refine ⟨hmain, fun hl => ?_⟩
  rw [hmain]
  have hneg : ((sa.R2 - sa.L2 : ℤ) : ℝ) < 0 := by
    have : sa.R2 - sa.L2 < 0 := by omega
    exact_mod_cast this
  have : ((sa.R2 - sa.L2 : ℤ) : ℝ) / 127 < 0 := by
    exact div_neg_of_neg_of_pos hneg (by norm_num)
  exact mul_neg_of_neg_of_pos this (by norm_num [rotSpeed])

/-- Witness for C6 at concrete pressures: R2 = 0, L2 = 255. -/
theorem heading_delta_triggers_witness :
    ((Controller.New.Tick st0 { sa0 with L2 := 255 }).2).Target.Heading
        - st0.Pose.Heading
      = (((0 : ℤ) - 255 : ℤ) : ℝ) / 127 * rotSpeed ∧
    ((255 : ℤ) > 0 → ((Controller.New.Tick st0 { sa0 with L2 := 255 }).2).Target.Heading
        - st0.Pose.Heading < 0) :=
  heading_delta_triggers Controller.New st0 { sa0 with L2 := 255 } rfl

/-- C8: on every non-no-op tick, with orientation-follow enabled at entry the
target pitch is the sensor's Y tilt axis negated and scaled by the pitch
constant and the target bank is the X axis negated and scaled by the bank
constant; with it disabled both are forced to zero, whatever the sensor reads. -/
theorem orientation_follow_pitch_bank (c : Controller) (s : State) (sa : SA)
    (h : s.Shutdown = false) :
    (c.setTargetOrientation = true →
      ((c.Tick s sa).2).Target.Pitch = -sa.Orientation.Y * pitchScale ∧
      ((c.Tick s sa).2).Target.Bank = -sa.Orientation.X * bankScale) ∧
    (c.setTargetOrientation = false →
      ((c.Tick s sa).2).Target.Pitch = 0 ∧
      ((c.Tick s sa).2).Target.Bank = 0) := by
  constructor <;> intro hm <;> constructor <;>
    simp [Controller.Tick, h, hm, apply_ite State.Target, apply_ite Pose.Pitch,
      apply_ite Pose.Bank]

/-- Witness for C8: a fresh controller has orientation-follow off, so pitch and
bank come out zero even with a nonzero sensor reading. -/
theorem orientation_follow_pitch_bank_witness :
    ((Controller.New.setTargetOrientation = true →
      ((Controller.New.Tick st0 { sa0 with Orientation := ⟨1, 1, 0⟩ }).2).Target.Pitch
          = -(⟨1, 1, 0⟩ : Vector3).Y * pitchScale ∧
      ((Controller.New.Tick st0 { sa0 with Orientation := ⟨1, 1, 0⟩ }).2).Target.Bank
          = -(⟨1, 1, 0⟩ : Vector3).X * bankScale) ∧
    (Controller.New.setTargetOrientation = false →
      ((Controller.New.Tick st0 { sa0 with Orientation := ⟨1, 1, 0⟩ }).2).Target.Pitch = 0 ∧
      ((Controller.New.Tick st0 { sa0 with Orientation := ⟨1, 1, 0⟩ }).2).Target.Bank = 0)) :=
  orientation_follow_pitch_bank Controller.New st0 { sa0 with Orientation := ⟨1, 1, 0⟩ } rfl

/-- C10: after every non-no-op tick with R1 pressure above the threshold,
`Offset.Y` is exactly 0 (the Offset write populates only X and Z); and at or
below the threshold Offset is not touched at all, so no operation of this
component ever assigns a nonzero Y component to Offset. -/
theorem offset_y_zero (c : Controller) (s : State) (sa : SA)
    (h : s.Shutdown = false) :
    (sa.R1 > minButtonPressure → ((c.Tick s sa).2).Offset.Y = 0) ∧
    (¬ sa.R1 > minButtonPressure → ((c.Tick s sa).2).Offset = s.Offset) := by
  constructor <;> intro hr <;>
    simp [Controller.Tick, h, hr, apply_ite State.Offset]

/-- Witness for C10 with R1 fully pressed. -/
theorem offset_y_zero_witness :
    (((255 : ℤ) > minButtonPressure →
      ((Controller.New.Tick st0 { sa0 with R1 := 255 }).2).Offset.Y = 0) ∧
     (¬ (255 : ℤ) > minButtonPressure →
      ((Controller.New.Tick st0 { sa0 with R1 := 255 }).2).Offset = st0.Offset)) ∧
    ((255 : ℤ) > minButtonPressure →
      ((Controller.New.Tick st0 { sa0 with R1 := 255 }).2).Offset.Y = 0) :=
  ⟨offset_y_zero Controller.New st0 { sa0 with R1 := 255 } rfl,
   (offset_y_zero Controller.New st0 { sa0 with R1 := 255 } rfl).1⟩

/-- The degree-cosine of zero is one. -/
lemma cosd_zero : cosd 0 = 1 := by simp [cosd]

/-- The degree-sine of zero is zero. -/
lemma sind_zero : sind 0 = 0 := by simp [sind]

/-- C7: on a non-no-op tick with LeftStick = {x:127, y:0}, equal trigger
pressures and a level, unrotated pose (the spec's test scenario), the target
satisfies `Target.Position.X − Pose.Position.X = 100` (the motion-speed
constant) exactly and the Z delta is 0; and the delta is added to the current
Pose, not the previous Target: the produced Target does not depend on the
Target held before the tick. -/
theorem planar_motion_delta (c : Controller) (s : State) (sa : SA)
    (h : s.Shutdown = false)
    (hx : sa.LeftStick.X = 127) (hy : sa.LeftStick.Y = 0) (ht : sa.R2 = sa.L2)
    (hh : s.Pose.Heading = 0) (hp : s.Pose.Pitch = 0) (hb : s.Pose.Bank = 0) :
    ((c.Tick s sa).2).Target.Position.X - s.Pose.Position.X = 100 ∧
    ((c.Tick s sa).2).Target.Position.Z - s.Pose.Position.Z = 0 ∧
    ∀ t : Pose, ((c.Tick { s with Target := t } sa).2).Target
        = ((c.Tick s sa).2).Target := by
  refine ⟨?_, ?_, ?_⟩
  · simp [Controller.Tick, h, hx, hy, ht, hh, hp, hb, Pose.Add, Pose.rotate,
      rotX, rotY, rotZ, cosd_zero, sind_zero, moveSpeed,
      apply_ite State.Target, apply_ite State.Pose, apply_ite Pose.Position,
      apply_ite Vector3.X]
    norm_num
  · simp [Controller.Tick, h, hx, hy, ht, hh, hp, hb, Pose.Add, Pose.rotate,
      rotX, rotY, rotZ, cosd_zero, sind_zero, moveSpeed,
      apply_ite State.Target, apply_ite State.Pose, apply_ite Pose.Position,
      apply_ite Vector3.Z]
  · intro t
    simp [Controller.Tick, h, apply_ite State.Target, apply_ite State.Pose]

/-- Witness for C7 at the concrete spec scenario: fresh controller, zeroed
state, left stick hard right. -/
theorem planar_motion_delta_witness :
    ((Controller.New.Tick st0 { sa0 with LeftStick := ⟨127, 0⟩ }).2).Target.Position.X
        - st0.Pose.Position.X = 100 ∧
    ((Controller.New.Tick st0 { sa0 with LeftStick := ⟨127, 0⟩ }).2).Target.Position.Z
        - st0.Pose.Position.Z = 0 ∧
    ∀ t : Pose,
      ((Controller.New.Tick { st0 with Target := t } { sa0 with LeftStick := ⟨127, 0⟩ }).2).Target
        = ((Controller.New.Tick st0 { sa0 with LeftStick := ⟨127, 0⟩ }).2).Target :=
  planar_motion_delta Controller.New st0 { sa0 with LeftStick := ⟨127, 0⟩ }
    rfl rfl rfl rfl rfl rfl rfl

/-- C9: holding Up (pressure above threshold) across 3 consecutive non-no-op
ticks, starting with the Up latch inactive and Down unpressed, moves the
clearance accumulator up by exactly one step (10), not three; symmetrically,
holding Down across 3 consecutive ticks moves it down by exactly one step. -/
theorem clearance_latch_once_per_hold :
    (∀ (c : Controller) (s : State) (sa1 sa2 sa3 : SA),
      s.Shutdown = false → c.upLatch.active = false →
      sa1.Start = false → sa2.Start = false →
      sa1.Up > minButtonPressure → sa2.Up > minButtonPressure →
      sa3.Up > minButtonPressure →
      ¬ sa1.Down > minButtonPressure → ¬ sa2.Down > minButtonPressure →
      ¬ sa3.Down > minButtonPressure →
      ((c.TickSeq s [sa1, sa2, sa3]).1).clearance = c.clearance + clearanceStep) ∧
    (∀ (c : Controller) (s : State) (sa1 sa2 sa3 : SA),
      s.Shutdown = false → c.downLatch.active = false →
      sa1.Start = false → sa2.Start = false →
      sa1.Down > minButtonPressure → sa2.Down > minButtonPressure →
      sa3.Down > minButtonPressure →
      ¬ sa1.Up > minButtonPressure → ¬ sa2.Up > minButtonPressure →
      ¬ sa3.Up > minButtonPressure →
      ((c.TickSeq s [sa1, sa2, sa3]).1).clearance = c.clearance - clearanceStep) := by
  constructor
  all_goals
    intro c s sa1 sa2 sa3 h hA h1s h2s h1u h2u h3u h1d h2d h3d
  all_goals
    have h1 : ((c.Tick s sa1).2).Shutdown = false := by
      rw [tick_shutdown_eq_start _ _ _ h]; exact h1s
  all_goals
    have h2 : (((c.Tick s sa1).1.Tick (c.Tick s sa1).2 sa2).2).Shutdown = false := by
      rw [tick_shutdown_eq_start _ _ _ h1]; exact h2s
  all_goals
    simp only [Controller.TickSeq]
    rw [tick_clearance_eq _ _ _ h2, tick_upLatch_eq _ _ _ h1, tick_downLatch_eq _ _ _ h1,
      tick_clearance_eq _ _ _ h1, tick_upLatch_eq _ _ _ h, tick_downLatch_eq _ _ _ h,
      tick_clearance_eq _ _ _ h]
    simp [h1u, h2u, h3u, h1d, h2d, h3d, hA]

/-- Witness for C9: a fresh controller (clearance 40) held at Up for three
ticks ends at 50; held at Down for three ticks ends at 30. -/
theorem clearance_latch_once_per_hold_witness :
    ((Controller.New.TickSeq st0 [saUp, saUp, saUp]).1).clearance
        = Controller.New.clearance + clearanceStep ∧
    ((Controller.New.TickSeq st0 [saDn, saDn, saDn]).1).clearance
        = Controller.New.clearance - clearanceStep :=
  ⟨clearance_latch_once_per_hold.1 Controller.New st0 saUp saUp saUp
      rfl rfl rfl rfl (by decide) (by decide) (by decide)
      (by decide) (by decide) (by decide),
   clearance_latch_once_per_hold.2 Controller.New st0 saDn saDn saDn
      rfl rfl rfl rfl (by decide) (by decide) (by decide)
      (by decide) (by decide) (by decide)⟩

end Hexapod
